import Mathlib

/-!
Verification of the WeeWX S3 synchronizer plugin (`bin/user/s3.py`).

The development shallowly embeds the plugin's two components:
* `triggerRun` — the `S3Generator.run` method (configuration resolution and
  thread dispatch), and
* `threadRun` — the `S3SyncThread.run` method (command construction, launch,
  output parsing and outcome reporting).

Python byte-string operations used by the source (`find`, `strip`,
`splitlines`, the regular expression search for `Uploaded (digits) bytes`,
`%`-formatting and `os.path.join`) are modelled on `List Char` / `String`.
Log emission is modelled as an accumulated list of leveled log calls; the
way a run terminates (normally, via `exit(1)` i.e. `SystemExit`, or with an
unhandled `NameError` / `ValueError`) is modelled by a `Termination` tag.
-/

namespace S3Plugin

/-- Python byte-string whitespace, as stripped by `bytes.strip()`. -/
def isPySpace (c : Char) : Bool :=
  c == ' ' || c == '\t' || c == '\n' || c == '\r' || c == '\x0b' || c == '\x0c'

/-- Boolean prefix test on character lists. -/
def isPrefixB : List Char → List Char → Bool
  | [], _ => true
  | _ :: _, [] => false
  | a :: p, b :: s => a == b && isPrefixB p s

/-- Boolean substring test: does `p` occur somewhere in `s`?
Models Python `s.find(p) >= 0`. -/
def containsSubB (s p : List Char) : Bool :=
  match s with
  | [] => p.isEmpty
  | c :: rest => isPrefixB p (c :: rest) || containsSubB rest p

/-- Python `s.find(sub) >= 0` on strings. -/
def pyContains (s sub : String) : Bool :=
  containsSubB s.data sub.data

/-- Python `bytes.strip()`: drop leading and trailing whitespace. -/
def pyStrip (s : String) : String :=
  String.mk (((s.data.dropWhile isPySpace).reverse.dropWhile isPySpace).reverse)

/-- Python `bytes.splitlines()`: split at `\n`, `\r` and `\r\n`,
with no trailing empty line. `acc` holds the current line reversed. -/
def splitlinesB : List Char → List Char → List (List Char)
  | [], acc => if acc.isEmpty then [] else [acc.reverse]
  | '\r' :: '\n' :: rest, acc => acc.reverse :: splitlinesB rest []
  | '\r' :: rest, acc => acc.reverse :: splitlinesB rest []
  | '\n' :: rest, acc => acc.reverse :: splitlinesB rest []
  | c :: rest, acc => splitlinesB rest (c :: acc)

/-- `str.splitlines()` on strings. -/
def pySplitlines (s : String) : List String :=
  (splitlinesB s.data []).map String.mk

/-- Attempt to match the regular expression `Uploaded (\d*) bytes` at the
start of `s`; on success return the (possibly empty) digit group. -/
def matchUploadedAt (s : List Char) : Option (List Char) :=
  if isPrefixB ("Uploaded ".data) s then
    let rest := s.drop 9
    let ds := rest.takeWhile Char.isDigit
    let after := rest.dropWhile Char.isDigit
    if isPrefixB (" bytes".data) after then some ds else none
  else none

/-- `re.search(r"Uploaded (\d*) bytes", line)`: leftmost match, returning the
captured digit group. (The pattern admits no backtracking: after the maximal
digit run the literal ` bytes` must follow, and a shortened digit run would
put a digit where the space is required.) -/
def searchUploaded : List Char → Option (List Char)
  | [] => none
  | c :: rest =>
    match matchUploadedAt (c :: rest) with
    | some ds => some ds
    | none => searchUploaded rest

/-- `int()` of a nonempty digit string (the empty-string case, on which
Python `int` raises `ValueError`, is handled at the call site). -/
def digitsToNat (ds : List Char) : Nat :=
  ds.foldl (fun n c => 10 * n + (c.toNat - 48)) 0

/-- Replace the first occurrence of `pat` in `s` by `rep`. -/
def replaceFirstB (s pat rep : List Char) : List Char :=
  match s with
  | [] => []
  | c :: rest =>
    if isPrefixB pat (c :: rest) then rep ++ (c :: rest).drop pat.length
    else c :: replaceFirstB rest pat rep

/-- Python `template % (elapsed)` for the templates of this plugin: each one
holds exactly one `%0.2f` conversion, replaced by the rendered float. -/
def pyFormatF (template arg : String) : String :=
  String.mk (replaceFirstB template.data ("%0.2f".data) arg.data)

/-- A single-quote character, used by Python `repr` of plain strings. -/
def squote : String := String.mk [Char.ofNat 39]

/-- Python `repr` of a plain string (no embedded quotes or escapes). -/
def pyRepr (s : String) : String := squote ++ s ++ squote

/-- Python `str` of a list of strings, as interpolated by `"%s" % cmd`. -/
def pyListRepr (l : List String) : String :=
  "[" ++ String.intercalate ", " (l.map pyRepr) ++ "]"

/-- `os.path.join(a, b)` for POSIX paths (two arguments). -/
def osPathJoin (a b : String) : String :=
  if isPrefixB ("/".data) b.data then b
  else if a.data.isEmpty then b
  else if isPrefixB ("/".data) a.data.reverse then a ++ b
  else a ++ "/" ++ b

/-- Log levels of the plugin's log sink (`logdbg` / `loginf` / `logerr`). -/
inductive Level where
  | debug
  | info
  | error
deriving DecidableEq, Repr

/-- One call to the log sink: a level and the formatted message. -/
structure LogCall where
  level : Level
  msg : String
deriving DecidableEq, Repr

/-- How the modelled Python code path ends: a normal return, `exit(1)`
(raising `SystemExit`), an unhandled `NameError` (use of an unassigned
local), or an unhandled `ValueError` (from `int` on an empty string). -/
inductive Termination where
  | normal
  | systemExit
  | nameError
  | valueError
deriving DecidableEq, Repr

/-- Result of the `subprocess.Popen` / `communicate` step, abstracted:
either the captured combined stdout+stderr text, or an `OSError` with its
`errno` and `strerror`. -/
inductive LaunchResult where
  | ok (stdout : String)
  | osError (errno : Nat) (strerror : String)
deriving DecidableEq, Repr

/-- Observable effect of one Sync Runner execution: the log calls emitted,
in order, and how the run terminated. -/
structure RunResult where
  logs : List LogCall
  term : Termination
deriving DecidableEq, Repr

/-- The sync job descriptor handed from `S3Generator.run` to
`S3SyncThread.__init__`. -/
structure SyncJob where
  access_key : String
  secret_token : String
  local_root : String
  remote_bucket : String
deriving DecidableEq, Repr

/-- The command list built by `S3SyncThread.run` (lines 125–132 of
`s3.py`), one `cmd.extend` per step. -/
def buildCmd (j : SyncJob) : List String :=
  let cmd := ["s3cmd"]
  let cmd := cmd ++ ["sync"]
  let cmd := cmd ++ ["--access_key=" ++ j.access_key]
  let cmd := cmd ++ ["--secret_key=" ++ j.secret_token]
  let cmd := cmd ++ ["--no-mime-magic"]
  let cmd := cmd ++ ["--storage-class=STANDARD"]
  let cmd := cmd ++ [j.local_root]
  let cmd := cmd ++ ["s3://" ++ j.remote_bucket]
  cmd

/-- The terminal success marker searched for in the tool output. -/
def doneMarker : String := "Done. Uploaded "

/-- The per-file upload marker counted in the tool output. -/
def uploadMarker : String := "upload:"

/-- `errno.ENOENT`. -/
def ENOENT : Nat := 2

/-- The byte count variable of the parsing loop: either the parsed number
or the literal Python string `"Unknown"`. -/
inductive ByteCnt where
  | num (n : Nat)
  | unknown
deriving DecidableEq, Repr

/-- The parsing loop of `S3SyncThread.run` (lines 153–162): count lines
containing `upload:`; on each line containing `Done. Uploaded ` re-assign
the byte count from the regex match (the string `Unknown` when the regex
does not match). `int` of an empty digit group raises `ValueError`,
modelled by `Except.error`. -/
def parseLoop (lines : List String) (fc : Nat) (bc : Option ByteCnt) :
    Except Unit (Nat × Option ByteCnt) :=
  match lines with
  | [] => .ok (fc, bc)
  | line :: rest =>
    let fc := if pyContains line uploadMarker then fc + 1 else fc
    if pyContains line doneMarker then
      match searchUploaded line.data with
      | some ds =>
        if ds.isEmpty then .error ()
        else parseLoop rest fc (some (ByteCnt.num (digitsToNat ds)))
      | none => parseLoop rest fc (some ByteCnt.unknown)
    else parseLoop rest fc bc

/-- Accumulator-style decimal rendering: pushes the digits of `n` (least
significant digit first) onto `acc`; `fuel` bounds the recursion depth and
is structurally decreasing so that the definition computes by reduction. -/
def natReprAux : Nat → Nat → List Char → List Char
  | 0, _, acc => acc
  | fuel + 1, n, acc =>
    if n = 0 then acc
    else natReprAux fuel (n / 10) (Char.ofNat (48 + n % 10) :: acc)

/-- Python `str` of a non-negative `int` (the `%d` / `%s` conversion of
the byte and file counts): plain decimal digits. `n` itself is enough fuel
since a number has no more decimal digits than its value. -/
def natRepr (n : Nat) : String :=
  if n = 0 then "0" else String.mk (natReprAux n n [])

/-- The message-formatting block of `S3SyncThread.run` (lines 165–171):
`file_cnt` is always an `int` and `byte_cnt` is always bound and not `None`
in this branch, so the formatted `Synced … files (… bytes) …` template is
produced (with `Unknown` interpolated for an unparsed byte count). -/
def formatMessage (fc : Nat) (bc : Option ByteCnt) : String :=
  match bc with
  | some (ByteCnt.num n) =>
    "Synced " ++ natRepr fc ++ " files (" ++ natRepr n ++ " bytes) in %0.2f seconds"
  | some ByteCnt.unknown =>
    "Synced " ++ natRepr fc ++ " files (Unknown bytes) in %0.2f seconds"
  | none => "Executed in %0.2f seconds"

/-- Lines 136–182 of `S3SyncThread.run`, given the launch outcome: the
`except OSError` handler, the output-echo debug logs, the classification of
the output, and the final report. After the launch nothing depends on the
job fields. `stopStr` renders `timestamp_to_string(stop_ts)` and
`elapsedStr` renders `%0.2f % (stop_ts - start_ts)`. -/
def threadRunRest (launch : LaunchResult) (stopStr elapsedStr : String) :
    List LogCall × Termination :=
  match launch with
  | .osError en es =>
    if en = ENOENT then
      ([⟨.info, "S3cmd does not appear to be installed on this system (errno "
          ++ toString en ++ ", \"" ++ es ++ "\")"⟩], .systemExit)
    else
      ([], .nameError)
  | .ok stdout =>
    let stroutput := pyStrip stdout
    let lines := pySplitlines stroutput
    let outLogs := LogCall.mk .debug ("S3cmd output: " ++ stroutput) ::
      lines.map (fun l => LogCall.mk .debug ("S3cmd output: " ++ l))
    if pyContains stroutput doneMarker then
      match parseLoop lines 0 none with
      | .error _ => (outLogs, .valueError)
      | .ok (fc, bc) =>
        (outLogs ++ [⟨.info, pyFormatF (formatMessage fc bc) elapsedStr⟩,
          ⟨.debug, "Sync ended at " ++ stopStr⟩], .normal)
    else
      (outLogs
        ++ (LogCall.mk .error "S3cmd reported errors" ::
            lines.map (fun l => LogCall.mk .error ("S3cmd error: " ++ l)))
        ++ [⟨.info, pyFormatF "Executed with errors in %0.2f seconds" elapsedStr⟩,
            ⟨.debug, "Sync ended at " ++ stopStr⟩], .normal)

/-- `S3SyncThread.run` in full: the two initial debug logs (sync-started
timestamp and the command echo, which interpolates the full command list
including both credential flags), then `threadRunRest`. -/
def threadRun (j : SyncJob) (launch : LaunchResult)
    (startStr stopStr elapsedStr : String) : RunResult :=
  { logs := LogCall.mk .debug ("Sync started at " ++ startStr) ::
      LogCall.mk .debug ("Executing command: " ++ pyListRepr (buildCmd j)) ::
      (threadRunRest launch stopStr elapsedStr).1,
    term := (threadRunRest launch stopStr elapsedStr).2 }

/-- The skin configuration dictionary view used by `S3Generator.run`:
each key either present with a string value or absent. -/
structure SkinDict where
  html_root : Option String
  access_key : Option String
  secret_token : Option String
  bucket : Option String
deriving DecidableEq, Repr

/-- The global configuration dictionary view used by `S3Generator.run`:
`WEEWX_ROOT` and `['StdReport']['HTML_ROOT']`. -/
structure ConfigDict where
  weewx_root : Option String
  stdreport_html_root : Option String
deriving DecidableEq, Repr

/-- Dictionary lookup: a missing key raises `KeyError(k)`. -/
def getKey (o : Option String) (k : String) : Except String String :=
  match o with
  | some v => .ok v
  | none => .error k

/-- The configuration resolution of `S3Generator.run` (lines 84–92), in the
source's evaluation order; the error value is the `KeyError` key. -/
def triggerResolve (cfg : ConfigDict) (skin : SkinDict) : Except String SyncJob :=
  Except.bind (getKey (skin.html_root.orElse (fun _ => cfg.stdreport_html_root)) "HTML_ROOT")
    (fun html_root =>
  Except.bind (getKey cfg.weewx_root "WEEWX_ROOT") (fun weewx_root =>
  Except.bind (getKey skin.access_key "access_key") (fun ak =>
  Except.bind (getKey skin.secret_token "secret_token") (fun st =>
  Except.bind (getKey skin.bucket "bucket") (fun bucket =>
  Except.ok { access_key := ak, secret_token := st,
              local_root := osPathJoin weewx_root html_root ++ "/",
              remote_bucket := bucket })))))

/-- Observable effect of one `S3Generator.run` invocation: either a
dispatch of a Sync Runner thread for a job, or an abort with a
termination mode (the `exit(1)` of the `KeyError` handler). -/
inductive TriggerResult where
  | dispatched (logs : List LogCall) (job : SyncJob)
  | aborted (logs : List LogCall) (term : Termination)
deriving DecidableEq, Repr

/-- The log calls of a trigger outcome. -/
def triggerLogs : TriggerResult → List LogCall
  | .dispatched logs _ => logs
  | .aborted logs _ => logs

/-- The dispatched job of a trigger outcome, when any. -/
def triggerJob : TriggerResult → Option SyncJob
  | .dispatched _ j => some j
  | .aborted _ _ => none

/-- `S3Generator.run` (lines 79–104 of `s3.py`): resolve the
configuration; on success emit the configured/launch debug logs and
dispatch the thread; on `KeyError` emit the info-level configuration
failure log and `exit(1)`. -/
def triggerRun (cfg : ConfigDict) (skin : SkinDict) : TriggerResult :=
  match triggerResolve cfg skin with
  | .ok job =>
    .dispatched
      [⟨.debug, "Reading properties from the configuration dictionary"⟩,
       ⟨.debug, "Successfully configured sync from local folder "
          ++ pyRepr job.local_root ++ " to remote bucket "
          ++ pyRepr job.remote_bucket⟩,
       ⟨.debug, "Launch separate thread to handle sync"⟩]
      job
  | .error k =>
    .aborted
      [⟨.debug, "Reading properties from the configuration dictionary"⟩,
       ⟨.info, "Configuration failed - caught exception " ++ pyRepr k⟩]
      .systemExit

/-- Number of log calls at a given level. -/
def countLevel (logs : List LogCall) (lv : Level) : Nat :=
  (logs.filter (fun c => c.level = lv)).length

/-- Number of lines containing the per-file upload marker: the value of
`file_cnt` after the parsing loop. -/
def countUpload (lines : List String) : Nat :=
  (lines.filter (fun l => pyContains l uploadMarker)).length

/-- A line on which the parsing loop raises `ValueError`: it contains the
terminal marker and the regex match captures an empty digit group. -/
def badLine (line : String) : Bool :=
  pyContains line doneMarker &&
    (match searchUploaded line.data with
     | some ds => ds.isEmpty
     | none => false)

/-- The `byte_cnt` value the loop body assigns for a line containing the
terminal marker. -/
def lineVal (line : String) : Option ByteCnt :=
  match searchUploaded line.data with
  | some ds => some (ByteCnt.num (digitsToNat ds))
  | none => some ByteCnt.unknown

/-- Left fold of the `byte_cnt` re-assignments of the parsing loop. -/
def byteFold (lines : List String) (bc : Option ByteCnt) : Option ByteCnt :=
  match lines with
  | [] => bc
  | line :: rest =>
    byteFold rest (if pyContains line doneMarker then lineVal line else bc)

/-- The last line containing the terminal marker, if any: the line whose
re-assignment of `byte_cnt` survives the loop. -/
def lastMarker : List String → Option String
  | [] => none
  | line :: rest =>
    match lastMarker rest with
    | some lm => some lm
    | none => if pyContains line doneMarker then some line else none

/-! ### Supporting lemmas -/

@[simp]
theorem countLevel_nil (lv : Level) : countLevel [] lv = 0 := rfl

@[simp]
theorem countLevel_cons (c : LogCall) (logs : List LogCall) (lv : Level) :
    countLevel (c :: logs) lv =
      (if c.level = lv then 1 else 0) + countLevel logs lv := by
  by_cases h : c.level = lv <;>
    simp [countLevel, List.filter_cons, h, Nat.add_comm]

@[simp]
theorem countLevel_append (a b : List LogCall) (lv : Level) :
    countLevel (a ++ b) lv = countLevel a lv + countLevel b lv := by
  simp [countLevel, List.filter_append]

@[simp]
theorem countLevel_map (lvl lv : Level) (f : String → String) (xs : List String) :
    countLevel (xs.map fun l => LogCall.mk lvl (f l)) lv =
      if lvl = lv then xs.length else 0 := by
  induction xs with
  | nil => simp
  | cons x xs ih =>
    by_cases h : lvl = lv <;> simp [h] at ih ⊢ <;> omega

/-- If no character of `w` equals the head of the pattern, the replacement
scan passes over `w` unchanged. -/
theorem replaceFirstB_skip (w rest rep : List Char) (c : Char) (ptail : List Char)
    (hw : ∀ a ∈ w, a ≠ c) :
    replaceFirstB (w ++ rest) (c :: ptail) rep =
      w ++ replaceFirstB rest (c :: ptail) rep := by
  induction w with
  | nil => rfl
  | cons a w ih =>
    have ha : (c == a) = false := by
      have := hw a (List.mem_cons_self a w)
      simp [beq_iff_eq]
      exact fun hc => this hc.symm
    have hpre : isPrefixB (c :: ptail) (a :: (w ++ rest)) = false := by
      simp [isPrefixB, ha]
    simp [replaceFirstB, hpre, ih fun x hx => hw x (List.mem_cons_of_mem _ hx)]

/-- Every character pushed by the decimal renderer is a decimal digit
code point. -/
theorem natReprAux_mem : ∀ (fuel n : Nat) (acc : List Char) (c : Char),
    (∀ a ∈ acc, ∃ d, d < 10 ∧ a = Char.ofNat (48 + d)) →
    c ∈ natReprAux fuel n acc → ∃ d, d < 10 ∧ c = Char.ofNat (48 + d)
  | 0, n, acc, c, hacc, h => hacc c (by simpa [natReprAux] using h)
  | fuel + 1, n, acc, c, hacc, h => by
    by_cases h0 : n = 0
    · simp only [natReprAux, h0, if_true] at h
      exact hacc c h
    · simp only [natReprAux, h0, if_false] at h
      refine natReprAux_mem fuel (n / 10) _ c ?_ h
      intro a ha
      rcases List.mem_cons.mp ha with h1 | h2
      · exact ⟨n % 10, Nat.mod_lt _ (by omega), h1⟩
      · exact hacc a h2

/-- No character of a rendered decimal number is a percent sign. -/
theorem natRepr_no_pct (n : Nat) : ∀ c ∈ (natRepr n).data, c ≠ '%' := by
  intro c hc
  unfold natRepr at hc
  by_cases h0 : n = 0
  · simp [h0] at hc
    subst hc; decide
  · simp [h0] at hc
    obtain ⟨d, hd, hcd⟩ := natReprAux_mem n n [] c (by simp) hc
    subst hcd
    interval_cases d <;> decide

/-- `%`-formatting a template `w ++ "%0.2f seconds"` whose prefix `w` holds
no percent sign replaces exactly the `%0.2f` conversion. -/
theorem pyFormatF_no_pct (w e : String) (hw : ∀ a ∈ w.data, a ≠ '%') :
    pyFormatF (w ++ "%0.2f seconds") e = w ++ e ++ " seconds" := by
  apply String.ext
  show replaceFirstB (w ++ "%0.2f seconds").data ("%0.2f".data) e.data =
    (w ++ e ++ " seconds").data
  rw [String.data_append w, String.data_append (w ++ e), String.data_append w e]
  have hp : ("%0.2f" : String).data = '%' :: ("0.2f" : String).data := rfl
  rw [hp, replaceFirstB_skip w.data _ _ '%' _ hw]
  have hcomp : replaceFirstB ("%0.2f seconds" : String).data
      ('%' :: ("0.2f" : String).data) e.data = e.data ++ (" seconds" : String).data := rfl
  rw [hcomp, List.append_assoc]

/-- Formatting the parsed-byte-count success template. -/
theorem pyFormatF_synced_num (fc n : Nat) (e : String) :
    pyFormatF (formatMessage fc (some (ByteCnt.num n))) e =
      "Synced " ++ natRepr fc ++ " files (" ++ natRepr n ++ " bytes) in "
        ++ e ++ " seconds" := by
  have hlit : (" bytes) in %0.2f seconds" : String) =
      " bytes) in " ++ "%0.2f seconds" := rfl
  have hsplit : formatMessage fc (some (ByteCnt.num n)) =
      ("Synced " ++ natRepr fc ++ " files (" ++ natRepr n ++ " bytes) in ")
        ++ "%0.2f seconds" := by
    simp [formatMessage, hlit, String.append_assoc]
  have hw : ∀ a ∈ ("Synced " ++ natRepr fc ++ " files (" ++ natRepr n
      ++ " bytes) in ").data, a ≠ '%' := by
    intro a ha
    simp only [String.data_append, List.mem_append] at ha
    rcases ha with (((h | h) | h) | h) | h
    · exact (by decide : ∀ c ∈ ("Synced " : String).data, c ≠ '%') a h
    · exact natRepr_no_pct fc a h
    · exact (by decide : ∀ c ∈ (" files (" : String).data, c ≠ '%') a h
    · exact natRepr_no_pct n a h
    · exact (by decide : ∀ c ∈ (" bytes) in " : String).data, c ≠ '%') a h
  rw [hsplit, pyFormatF_no_pct _ _ hw]

/-- Formatting the unknown-byte-count success template. -/
theorem pyFormatF_synced_unknown (fc : Nat) (e : String) :
    pyFormatF (formatMessage fc (some ByteCnt.unknown)) e =
      "Synced " ++ natRepr fc ++ " files (Unknown bytes) in " ++ e ++ " seconds" := by
  have hlit : (" files (Unknown bytes) in %0.2f seconds" : String) =
      " files (Unknown bytes) in " ++ "%0.2f seconds" := rfl
  have hsplit : formatMessage fc (some ByteCnt.unknown) =
      ("Synced " ++ natRepr fc ++ " files (Unknown bytes) in ") ++ "%0.2f seconds" := by
    simp [formatMessage, hlit, String.append_assoc]
  have hw : ∀ a ∈ ("Synced " ++ natRepr fc ++ " files (Unknown bytes) in ").data,
      a ≠ '%' := by
    intro a ha
    simp only [String.data_append, List.mem_append] at ha
    rcases ha with (h | h) | h
    · exact (by decide : ∀ c ∈ ("Synced " : String).data, c ≠ '%') a h
    · exact natRepr_no_pct fc a h
    · exact (by decide : ∀ c ∈ (" files (Unknown bytes) in " : String).data, c ≠ '%') a h
  rw [hsplit, pyFormatF_no_pct _ _ hw]

/-- Formatting the error-branch template. -/
theorem pyFormatF_errors (e : String) :
    pyFormatF "Executed with errors in %0.2f seconds" e =
      "Executed with errors in " ++ e ++ " seconds" := rfl

/-- The parsing loop, characterized: when no line raises `ValueError`, it
returns `file_cnt` incremented once per upload-marker line and `byte_cnt`
as the fold of the marker-line re-assignments. -/
theorem parseLoop_eq (lines : List String) (fc : Nat) (bc : Option ByteCnt)
    (h : ∀ line ∈ lines, badLine line = false) :
    parseLoop lines fc bc = .ok (fc + countUpload lines, byteFold lines bc) := by
  induction lines generalizing fc bc with
  | nil => simp [parseLoop, countUpload, byteFold]
  | cons line rest ih =>
    have hline := h line (List.mem_cons_self line rest)
    have hrest : ∀ l ∈ rest, badLine l = false :=
      fun l hl => h l (List.mem_cons_of_mem _ hl)
    by_cases hd : pyContains line doneMarker
    · cases hs : searchUploaded line.data with
      | some ds =>
        have hne : ds.isEmpty = false := by
          have := hline
          simp [badLine, hd, hs] at this
          simpa using this
        simp only [parseLoop, hd, hs, hne, if_true, if_false, Bool.false_eq_true,
          ih _ _ hrest, countUpload, byteFold, lineVal, List.filter_cons]
        by_cases hu : pyContains line uploadMarker <;>
          simp [hu, countUpload, lineVal, hs, hd] <;> omega
      | none =>
        simp only [parseLoop, hd, hs, if_true, ih _ _ hrest, countUpload,
          byteFold, lineVal, List.filter_cons]
        by_cases hu : pyContains line uploadMarker <;>
          simp [hu, countUpload, lineVal, hs, hd] <;> omega
    · simp only [parseLoop, hd, Bool.false_eq_true, if_false, ih _ _ hrest,
        countUpload, byteFold, List.filter_cons]
      by_cases hu : pyContains line uploadMarker <;>
        simp [hu, countUpload, hd] <;> omega

/-- The surviving `byte_cnt` assignment is the one of the last line
containing the terminal marker. -/
theorem byteFold_last (lines : List String) (bc : Option ByteCnt) :
    byteFold lines bc =
      (match lastMarker lines with
       | some lm => lineVal lm
       | none => bc) := by
  induction lines generalizing bc with
  | nil => rfl
  | cons line rest ih =>
    cases hr : lastMarker rest with
    | some lm =>
      by_cases hd : pyContains line doneMarker <;>
        simp [byteFold, lastMarker, hr, hd, ih]
    | none =>
      by_cases hd : pyContains line doneMarker <;>
        simp [byteFold, lastMarker, hr, hd, ih]

/-- The last marker line is a member of the list and contains the marker. -/
theorem lastMarker_mem (lines : List String) (lm : String)
    (h : lastMarker lines = some lm) :
    lm ∈ lines ∧ pyContains lm doneMarker = true := by
  induction lines with
  | nil => simp [lastMarker] at h
  | cons line rest ih =>
    rw [lastMarker] at h
    cases hr : lastMarker rest with
    | some l =>
      rw [hr] at h
      obtain ⟨h1, h2⟩ := ih (hr.trans (by injection h; subst_vars; rfl))
      exact ⟨List.mem_cons_of_mem _ h1, h2⟩
    | none =>
      rw [hr] at h
      by_cases hd : pyContains line doneMarker
      · simp [hd] at h
        subst h
        exact ⟨List.mem_cons_self _ _, hd⟩
      · simp [hd] at h

/-- Success of the configuration resolution, characterized: every key is
present and the local root is the joined path with a trailing separator. -/
theorem triggerResolve_ok_shape (cfg : ConfigDict) (skin : SkinDict) (job : SyncJob)
    (h : triggerResolve cfg skin = .ok job) :
    ∃ wr hr, cfg.weewx_root = some wr ∧
      skin.html_root.orElse (fun _ => cfg.stdreport_html_root) = some hr ∧
      skin.access_key = some job.access_key ∧
      skin.secret_token = some job.secret_token ∧
      skin.bucket = some job.remote_bucket ∧
      job.local_root = osPathJoin wr hr ++ "/" := by
  cases h1 : skin.html_root.orElse (fun _ => cfg.stdreport_html_root) with
  | none => simp [triggerResolve, getKey, h1, Except.bind] at h
  | some hr =>
    cases h2 : cfg.weewx_root with
    | none => simp [triggerResolve, getKey, h1, h2, Except.bind] at h
    | some wr =>
      cases h3 : skin.access_key with
      | none => simp [triggerResolve, getKey, h1, h2, h3, Except.bind] at h
      | some ak =>
        cases h4 : skin.secret_token with
        | none => simp [triggerResolve, getKey, h1, h2, h3, h4, Except.bind] at h
        | some st =>
          cases h5 : skin.bucket with
          | none => simp [triggerResolve, getKey, h1, h2, h3, h4, h5, Except.bind] at h
          | some bk =>
            simp only [triggerResolve, getKey, h1, h2, h3, h4, h5, Except.bind,
              Except.ok.injEq] at h
            subst h
            exact ⟨wr, hr, rfl, rfl, rfl, rfl, rfl, rfl⟩

/-! ### Claim theorems -/

/-- C6 (amended): on the `command not found` launch failure (`OSError` with
`errno == ENOENT`), exactly one further log call occurs — an info-level (not
error-level) message identifying the missing `s3cmd` executable — and the
run terminates via `exit(1)` with no output parsing, no file or byte counts,
and no success message. -/
theorem enoent_launch_failure (j : SyncJob) (es startStr stopStr elapsedStr : String) :
    threadRun j (.osError ENOENT es) startStr stopStr elapsedStr =
      { logs := [⟨.debug, "Sync started at " ++ startStr⟩,
                 ⟨.debug, "Executing command: " ++ pyListRepr (buildCmd j)⟩,
                 ⟨.info, "S3cmd does not appear to be installed on this system (errno 2, \"" ++ es ++ "\")"⟩],
        term := .systemExit } := rfl

/-- C6 counterexample: on the missing-executable failure, the number of
error-level log calls is zero — the claimed single error-level call
identifying the missing tool does not happen (the message is emitted at
info level instead). -/
theorem enoent_no_error_level_call :
    countLevel (threadRun ⟨"AK", "ST", "/var/www/html/", "bkt"⟩
      (.osError 2 "No such file or directory") "S" "T" "0.42").logs .error = 0 := by
  decide

/-- C10: if launching the child process raises an `OSError` whose `errno`
is not `ENOENT`, the except-branch does nothing and the next statement uses
the never-assigned `stroutput` local: the run ends in a `NameError` with no
output parsing and no outcome report; parsing is reached only when the
launch succeeds or fails exactly with `ENOENT`. -/
theorem non_enoent_oserror_falls_through (j : SyncJob) (en : Nat)
    (es startStr stopStr elapsedStr : String) (h : en ≠ ENOENT) :
    threadRun j (.osError en es) startStr stopStr elapsedStr =
      { logs := [⟨.debug, "Sync started at " ++ startStr⟩,
                 ⟨.debug, "Executing command: " ++ pyListRepr (buildCmd j)⟩],
        term := .nameError } := by
  simp [threadRun, threadRunRest, h]

/-- Witness for C10 at `errno = EACCES (13)`. -/
theorem non_enoent_oserror_falls_through_witness :
    (13 : Nat) ≠ ENOENT ∧
    threadRun ⟨"AK", "ST", "/var/www/html/", "bkt"⟩
      (.osError 13 "Permission denied") "S" "T" "0.42" =
      { logs := [⟨.debug, "Sync started at S"⟩,
                 ⟨.debug, "Executing command: "
                    ++ pyListRepr (buildCmd ⟨"AK", "ST", "/var/www/html/", "bkt"⟩)⟩],
        term := .nameError } :=
  ⟨by decide,
   non_enoent_oserror_falls_through ⟨"AK", "ST", "/var/www/html/", "bkt"⟩ 13
     "Permission denied" "S" "T" "0.42" (by decide)⟩

/-- C2 (amended): when a required configuration key is missing, the Trigger
logs the configuration failure at info level (not error level), dispatches
nothing — the Sync Runner is never invoked and no process is spawned — and
aborts the cycle by `exit(1)`, i.e. a `SystemExit` escapes the Trigger. -/
theorem config_error_aborts (cfg : ConfigDict) (skin : SkinDict) (k : String)
    (h : triggerResolve cfg skin = .error k) :
    triggerRun cfg skin = .aborted
      [⟨.debug, "Reading properties from the configuration dictionary"⟩,
       ⟨.info, "Configuration failed - caught exception " ++ pyRepr k⟩]
      .systemExit := by
  simp [triggerRun, h]

/-- Witness for C2 at a configuration whose skin lacks the `bucket` key. -/
theorem config_error_aborts_witness :
    triggerResolve ⟨some "/home/weewx", some "public_html"⟩
      ⟨none, some "AK", some "ST", none⟩ = .error "bucket" ∧
    triggerRun ⟨some "/home/weewx", some "public_html"⟩
      ⟨none, some "AK", some "ST", none⟩ = .aborted
      [⟨.debug, "Reading properties from the configuration dictionary"⟩,
       ⟨.info, "Configuration failed - caught exception " ++ pyRepr "bucket"⟩]
      .systemExit :=
  ⟨rfl, config_error_aborts ⟨some "/home/weewx", some "public_html"⟩
    ⟨none, some "AK", some "ST", none⟩ "bucket" rfl⟩

/-- C2 counterexample: with the `bucket` key absent, the Trigger emits zero
error-level log calls (the configuration failure is logged at info level),
and the cycle is aborted by a `SystemExit` escaping the Trigger. -/
theorem config_failure_not_error_level :
    countLevel (triggerLogs (triggerRun ⟨some "/home/weewx", some "public_html"⟩
      ⟨none, some "AK", some "ST", none⟩)) .error = 0 ∧
    triggerJob (triggerRun ⟨some "/home/weewx", some "public_html"⟩
      ⟨none, some "AK", some "ST", none⟩) = none ∧
    triggerRun ⟨some "/home/weewx", some "public_html"⟩
      ⟨none, some "AK", some "ST", none⟩ =
      .aborted [⟨.debug, "Reading properties from the configuration dictionary"⟩,
                ⟨.info, "Configuration failed - caught exception " ++ pyRepr "bucket"⟩]
        .systemExit :=
  ⟨by decide, by decide, rfl⟩

/-- C8: for every job the Trigger dispatches, the argument list built for
the external tool is exactly, in order: the tool name, `sync`, the
access-key flag, the secret-key flag, `--no-mime-magic`, the storage-class
flag with the fixed default tier `STANDARD`, the local root (which ends in
`/`), and the remote target `s3://<bucket>`. -/
theorem build_cmd_exact (cfg : ConfigDict) (skin : SkinDict) (job : SyncJob)
    (h : triggerResolve cfg skin = .ok job) :
    buildCmd job = ["s3cmd", "sync",
      "--access_key=" ++ job.access_key,
      "--secret_key=" ++ job.secret_token,
      "--no-mime-magic", "--storage-class=STANDARD",
      job.local_root, "s3://" ++ job.remote_bucket] ∧
    job.local_root.data.getLast? = some (Char.ofNat 47) := by
  obtain ⟨wr, hr, _, _, _, _, _, hlr⟩ := triggerResolve_ok_shape cfg skin job h
  refine ⟨rfl, ?_⟩
  rw [hlr, String.data_append]
  exact List.getLast?_concat _

/-- Witness for C8 at a fully-populated configuration. -/
theorem build_cmd_exact_witness :
    buildCmd ⟨"AK", "ST", "/home/weewx/public_html/", "bkt"⟩ = ["s3cmd", "sync",
      "--access_key=AK", "--secret_key=ST",
      "--no-mime-magic", "--storage-class=STANDARD",
      "/home/weewx/public_html/", "s3://bkt"] ∧
    ("/home/weewx/public_html/" : String).data.getLast? = some (Char.ofNat 47) :=
  build_cmd_exact ⟨some "/home/weewx", some "public_html"⟩
    ⟨none, some "AK", some "ST", some "bkt"⟩
    ⟨"AK", "ST", "/home/weewx/public_html/", "bkt"⟩ rfl

/-- C9: for every configuration the Trigger resolves successfully, the
effective local root is `os.path.join(WEEWX_ROOT, html_root) + "/"`, where
`html_root` is the skin-level `HTML_ROOT` override when present and
otherwise the `[StdReport]` default. -/
theorem local_root_resolution (cfg : ConfigDict) (skin : SkinDict) (job : SyncJob)
    (wr hr : String)
    (hwr : cfg.weewx_root = some wr)
    (hhr : skin.html_root = some hr ∨
      (skin.html_root = none ∧ cfg.stdreport_html_root = some hr))
    (h : triggerResolve cfg skin = .ok job) :
    job.local_root = osPathJoin wr hr ++ "/" := by
  obtain ⟨wr2, hr2, hwr2, hhr2, _, _, _, hlr⟩ := triggerResolve_ok_shape cfg skin job h
  have ewr : wr2 = wr := by
    rw [hwr] at hwr2
    exact (Option.some.injEq _ _ ▸ hwr2).symm
  have ehr : hr2 = hr := by
    rcases hhr with h1 | ⟨h1, h2⟩
    · rw [h1] at hhr2
      simp [Option.orElse] at hhr2
      exact hhr2.symm
    · rw [h1] at hhr2
      simp [Option.orElse, h2] at hhr2
      exact hhr2.symm
  rw [hlr, ewr, ehr]

/-- Witness for C9 at a configuration with no skin override. -/
theorem local_root_resolution_witness :
    (⟨"AK", "ST", "/home/weewx/public_html/", "bkt"⟩ : SyncJob).local_root =
      osPathJoin "/home/weewx" "public_html" ++ "/" :=
  local_root_resolution ⟨some "/home/weewx", some "public_html"⟩
    ⟨none, some "AK", some "ST", some "bkt"⟩
    ⟨"AK", "ST", "/home/weewx/public_html/", "bkt"⟩
    "/home/weewx" "public_html" rfl (Or.inr ⟨rfl, rfl⟩) rfl

/-- The launch-ok, no-marker (error-reported) branch of the Runner, with its
log list written out. -/
theorem threadRun_ok_no_marker (j : SyncJob) (out startStr stopStr elapsedStr : String)
    (hm : pyContains (pyStrip out) doneMarker = false) :
    threadRun j (.ok out) startStr stopStr elapsedStr =
      { logs := [LogCall.mk .debug ("Sync started at " ++ startStr),
          LogCall.mk .debug ("Executing command: " ++ pyListRepr (buildCmd j)),
          LogCall.mk .debug ("S3cmd output: " ++ pyStrip out)]
          ++ (pySplitlines (pyStrip out)).map
              (fun l => LogCall.mk .debug ("S3cmd output: " ++ l))
          ++ [LogCall.mk .error "S3cmd reported errors"]
          ++ (pySplitlines (pyStrip out)).map
              (fun l => LogCall.mk .error ("S3cmd error: " ++ l))
          ++ [LogCall.mk .info ("Executed with errors in " ++ elapsedStr ++ " seconds"),
              LogCall.mk .debug ("Sync ended at " ++ stopStr)],
        term := .normal } := by
  simp [threadRun, threadRunRest, hm, pyFormatF_errors]

/-- The launch-ok, marker-found branch of the Runner for a non-raising
parse, with its log list written out. -/
theorem threadRun_ok_marker (j : SyncJob) (out startStr stopStr elapsedStr : String)
    (fc : Nat) (bc : Option ByteCnt)
    (hm : pyContains (pyStrip out) doneMarker = true)
    (hp : parseLoop (pySplitlines (pyStrip out)) 0 none = .ok (fc, bc)) :
    threadRun j (.ok out) startStr stopStr elapsedStr =
      { logs := [LogCall.mk .debug ("Sync started at " ++ startStr),
          LogCall.mk .debug ("Executing command: " ++ pyListRepr (buildCmd j)),
          LogCall.mk .debug ("S3cmd output: " ++ pyStrip out)]
          ++ (pySplitlines (pyStrip out)).map
              (fun l => LogCall.mk .debug ("S3cmd output: " ++ l))
          ++ [LogCall.mk .info (pyFormatF (formatMessage fc bc) elapsedStr),
              LogCall.mk .debug ("Sync ended at " ++ stopStr)],
        term := .normal } := by
  simp [threadRun, threadRunRest, hm, hp]

/-- C1 (amended): for every run whose launch succeeds and whose output
contains no marker line with an empty byte-count match (the `ValueError`
edge), exactly one outcome-level (info) log report is emitted and the
Runner terminates normally, so no error propagates past its boundary. On
launch-failure paths the original claim fails: see the counterexample. -/
theorem launch_ok_single_report (j : SyncJob) (out startStr stopStr elapsedStr : String)
    (h : ∀ line ∈ pySplitlines (pyStrip out), badLine line = false) :
    countLevel (threadRun j (.ok out) startStr stopStr elapsedStr).logs .info = 1 ∧
    (threadRun j (.ok out) startStr stopStr elapsedStr).term = .normal := by
  by_cases hm : pyContains (pyStrip out) doneMarker
  · rw [threadRun_ok_marker j out startStr stopStr elapsedStr _ _ hm
      (parseLoop_eq _ 0 none h)]
    simp
  · rw [threadRun_ok_no_marker j out startStr stopStr elapsedStr
      (by simpa using hm)]
    simp

/-- Witness for C1 on a small successful output. -/
theorem launch_ok_single_report_witness :
    countLevel (threadRun ⟨"AK", "ST", "/var/www/html/", "bkt"⟩
      (.ok "upload: a\nDone. Uploaded 77 bytes") "S" "T" "0.42").logs .info = 1 ∧
    (threadRun ⟨"AK", "ST", "/var/www/html/", "bkt"⟩
      (.ok "upload: a\nDone. Uploaded 77 bytes") "S" "T" "0.42").term = .normal :=
  launch_ok_single_report ⟨"AK", "ST", "/var/www/html/", "bkt"⟩
    "upload: a\nDone. Uploaded 77 bytes" "S" "T" "0.42" (by decide)

/-- C1 counterexample: on a launch failure with a non-`ENOENT` `OSError`
(here `EACCES = 13`), no outcome-level report is emitted at all — zero
info-level and zero error-level log calls — and the run ends in an
unhandled `NameError` that escapes the Runner. -/
theorem oserror_silent_drop :
    (threadRun ⟨"AK", "ST", "/var/www/html/", "bkt"⟩
      (.osError 13 "Permission denied") "S" "T" "0.42").term = .nameError ∧
    countLevel (threadRun ⟨"AK", "ST", "/var/www/html/", "bkt"⟩
      (.osError 13 "Permission denied") "S" "T" "0.42").logs .info = 0 ∧
    countLevel (threadRun ⟨"AK", "ST", "/var/www/html/", "bkt"⟩
      (.osError 13 "Permission denied") "S" "T" "0.42").logs .error = 0 := by
  exact ⟨by decide, by decide, by decide⟩

/-- C3 (amended): the credentials influence no log message other than the
Runner's second log call, the debug-level command echo (which interpolates
the full command list, credential flags included): for any two jobs the
Runner's logs agree once that echo is removed, and so does the termination;
the Trigger's log output is independent of the credential values. -/
theorem credentials_only_in_command_echo (j1 j2 : SyncJob) (launch : LaunchResult)
    (startStr stopStr elapsedStr : String)
    (cfg : ConfigDict) (hropt bkopt : Option String) (ak1 st1 ak2 st2 : String) :
    (threadRun j1 launch startStr stopStr elapsedStr).logs.eraseIdx 1 =
      (threadRun j2 launch startStr stopStr elapsedStr).logs.eraseIdx 1 ∧
    (threadRun j1 launch startStr stopStr elapsedStr).term =
      (threadRun j2 launch startStr stopStr elapsedStr).term ∧
    (threadRun j1 launch startStr stopStr elapsedStr).logs.get? 1 =
      some ⟨.debug, "Executing command: " ++ pyListRepr (buildCmd j1)⟩ ∧
    triggerLogs (triggerRun cfg ⟨hropt, some ak1, some st1, bkopt⟩) =
      triggerLogs (triggerRun cfg ⟨hropt, some ak2, some st2, bkopt⟩) := by
  have hlogs : ∀ j : SyncJob, (threadRun j launch startStr stopStr elapsedStr).logs =
      LogCall.mk .debug ("Sync started at " ++ startStr) ::
      LogCall.mk .debug ("Executing command: " ++ pyListRepr (buildCmd j)) ::
      (threadRunRest launch stopStr elapsedStr).1 := fun _ => rfl
  have hterm : ∀ j : SyncJob, (threadRun j launch startStr stopStr elapsedStr).term =
      (threadRunRest launch stopStr elapsedStr).2 := fun _ => rfl
  refine ⟨?_, ?_, ?_, ?_⟩
  · rw [hlogs j1, hlogs j2]
    simp [List.eraseIdx]
  · rw [hterm j1, hterm j2]
  · rw [hlogs j1]
    simp [List.get?]
  · rcases cfg with ⟨wropt, sropt⟩
    cases hropt <;> cases sropt <;> cases wropt <;> cases bkopt <;>
      simp [triggerRun, triggerResolve, getKey, Option.orElse, Except.bind, triggerLogs]

set_option maxHeartbeats 2000000 in
/-- C3 counterexample: for a concrete job, one of the Runner's log messages
(the debug-level command echo) contains both the access key and the secret
token verbatim — so the credentials do appear in a log message. -/
theorem credentials_appear_in_debug_log :
    ((threadRun ⟨"AK", "SECRET", "/r/", "b"⟩
      (.ok "") "S" "T" "0.00").logs.any
        (fun c => pyContains c.msg "SECRET" && pyContains c.msg "--access_key=AK")) = true := by
  decide

/-- C4: when the captured output contains no `Done. Uploaded ` marker, the
run is classified as error-reported: the `S3cmd reported errors` log is
emitted at error level, every line of the (stripped) output appears in an
error-level log call, the single outcome message reports the elapsed time
only — no file or byte counts — and the run terminates normally. -/
theorem errors_reported_dump (j : SyncJob) (out startStr stopStr elapsedStr : String)
    (hm : pyContains (pyStrip out) doneMarker = false) :
    (∀ line ∈ pySplitlines (pyStrip out),
      LogCall.mk .error ("S3cmd error: " ++ line) ∈
        (threadRun j (.ok out) startStr stopStr elapsedStr).logs) ∧
    LogCall.mk .error "S3cmd reported errors" ∈
      (threadRun j (.ok out) startStr stopStr elapsedStr).logs ∧
    LogCall.mk .info ("Executed with errors in " ++ elapsedStr ++ " seconds") ∈
      (threadRun j (.ok out) startStr stopStr elapsedStr).logs ∧
    (threadRun j (.ok out) startStr stopStr elapsedStr).term = .normal := by
  rw [threadRun_ok_no_marker j out startStr stopStr elapsedStr hm]
  refine ⟨?_, ?_, ?_, rfl⟩
  · intro line hl
    exact List.mem_append_left _ (List.mem_append_right _
      (List.mem_map_of_mem _ hl))
  · exact List.mem_append_left _ (List.mem_append_left _
      (List.mem_append_right _ (List.mem_cons_self _ _)))
  · exact List.mem_append_right _ (List.mem_cons_self _ _)

/-- Witness for C4 on a two-line error output. -/
theorem errors_reported_dump_witness :
    (∀ line ∈ pySplitlines (pyStrip "ERROR: boom\nWARNING: x"),
      LogCall.mk .error ("S3cmd error: " ++ line) ∈
        (threadRun ⟨"AK", "ST", "/var/www/html/", "bkt"⟩
          (.ok "ERROR: boom\nWARNING: x") "S" "T" "0.42").logs) ∧
    LogCall.mk .error "S3cmd reported errors" ∈
      (threadRun ⟨"AK", "ST", "/var/www/html/", "bkt"⟩
        (.ok "ERROR: boom\nWARNING: x") "S" "T" "0.42").logs ∧
    LogCall.mk .info ("Executed with errors in " ++ "0.42" ++ " seconds") ∈
      (threadRun ⟨"AK", "ST", "/var/www/html/", "bkt"⟩
        (.ok "ERROR: boom\nWARNING: x") "S" "T" "0.42").logs ∧
    (threadRun ⟨"AK", "ST", "/var/www/html/", "bkt"⟩
      (.ok "ERROR: boom\nWARNING: x") "S" "T" "0.42").term = .normal :=
  errors_reported_dump ⟨"AK", "ST", "/var/www/html/", "bkt"⟩
    "ERROR: boom\nWARNING: x" "S" "T" "0.42" (by decide)

/-- C5: when the output contains the terminal marker, no marker line has an
empty byte-count match, and the last marker line captures the digit group
`ds`, the single success message reports as file count the number of lines
containing the per-file upload marker (each such line increments
`file_cnt` by one) and as byte count the number extracted from that
terminal marker line. -/
theorem success_counts (j : SyncJob) (out startStr stopStr elapsedStr : String)
    (lm : String) (ds : List Char)
    (hm : pyContains (pyStrip out) doneMarker = true)
    (hbad : ∀ line ∈ pySplitlines (pyStrip out), badLine line = false)
    (hlm : lastMarker (pySplitlines (pyStrip out)) = some lm)
    (hds : searchUploaded lm.data = some ds) :
    LogCall.mk .info ("Synced " ++ natRepr (countUpload (pySplitlines (pyStrip out)))
        ++ " files (" ++ natRepr (digitsToNat ds) ++ " bytes) in "
        ++ elapsedStr ++ " seconds") ∈
      (threadRun j (.ok out) startStr stopStr elapsedStr).logs := by
  have hp := parseLoop_eq (pySplitlines (pyStrip out)) 0 none hbad
  simp only [byteFold_last, hlm] at hp
  have hv : lineVal lm = some (ByteCnt.num (digitsToNat ds)) := by
    simp [lineVal, hds]
  rw [hv] at hp
  rw [threadRun_ok_marker j out startStr stopStr elapsedStr _ _ hm hp]
  have hmsg : pyFormatF (formatMessage (0 + countUpload (pySplitlines (pyStrip out)))
      (some (ByteCnt.num (digitsToNat ds)))) elapsedStr =
      "Synced " ++ natRepr (countUpload (pySplitlines (pyStrip out)))
        ++ " files (" ++ natRepr (digitsToNat ds) ++ " bytes) in "
        ++ elapsedStr ++ " seconds" := by
    rw [Nat.zero_add, pyFormatF_synced_num]
  rw [hmsg]
  exact List.mem_append_right _ (List.mem_cons_self _ _)

/-- Witness for C5 on an output with two upload lines and the marker line
`Done. Uploaded 12345 bytes`: the message reports 2 files and 12345 bytes. -/
theorem success_counts_witness :
    LogCall.mk .info "Synced 2 files (12345 bytes) in 0.42 seconds" ∈
      (threadRun ⟨"AK", "ST", "/var/www/html/", "bkt"⟩
        (.ok "upload: f1\nupload: f2\nDone. Uploaded 12345 bytes")
        "S" "T" "0.42").logs := by
  have h := success_counts ⟨"AK", "ST", "/var/www/html/", "bkt"⟩
    "upload: f1\nupload: f2\nDone. Uploaded 12345 bytes" "S" "T" "0.42"
    "Done. Uploaded 12345 bytes"
    [Char.ofNat 49, Char.ofNat 50, Char.ofNat 51, Char.ofNat 52, Char.ofNat 53]
    (by decide) (by decide) (by decide) (by decide)
  have e : ("Synced " ++ natRepr (countUpload (pySplitlines
        (pyStrip "upload: f1\nupload: f2\nDone. Uploaded 12345 bytes")))
      ++ " files (" ++ natRepr (digitsToNat
        [Char.ofNat 49, Char.ofNat 50, Char.ofNat 51, Char.ofNat 52, Char.ofNat 53])
      ++ " bytes) in " ++ "0.42" ++ " seconds") =
      "Synced 2 files (12345 bytes) in 0.42 seconds" := by decide
  rw [e] at h
  exact h

/-- C7 (amended): when the success marker is found but the byte-count regex
matches on no marker line, `byte_cnt` is assigned the Python string
`Unknown` and the run still produces a success-shaped message — it carries
the file count and `Unknown` as the byte count rather than omitting counts
for an elapsed-time-only message; the run is not treated as an error (zero
error-level log calls, normal termination). -/
theorem unknown_bytes_graceful (j : SyncJob) (out startStr stopStr elapsedStr : String)
    (lm : String)
    (hm : pyContains (pyStrip out) doneMarker = true)
    (hall : ∀ line ∈ pySplitlines (pyStrip out),
      pyContains line doneMarker = true → searchUploaded line.data = none)
    (hlm : lastMarker (pySplitlines (pyStrip out)) = some lm) :
    LogCall.mk .info ("Synced " ++ natRepr (countUpload (pySplitlines (pyStrip out)))
        ++ " files (Unknown bytes) in " ++ elapsedStr ++ " seconds") ∈
      (threadRun j (.ok out) startStr stopStr elapsedStr).logs ∧
    countLevel (threadRun j (.ok out) startStr stopStr elapsedStr).logs .error = 0 ∧
    (threadRun j (.ok out) startStr stopStr elapsedStr).term = .normal := by
  have hbad : ∀ line ∈ pySplitlines (pyStrip out), badLine line = false := by
    intro line hl
    by_cases hd : pyContains line doneMarker
    · simp [badLine, hd, hall line hl hd]
    · simp [badLine, hd]
  have hp := parseLoop_eq (pySplitlines (pyStrip out)) 0 none hbad
  simp only [byteFold_last, hlm] at hp
  obtain ⟨hmem, hmk⟩ := lastMarker_mem _ _ hlm
  have hv : lineVal lm = some ByteCnt.unknown := by
    simp [lineVal, hall lm hmem hmk]
  rw [hv] at hp
  rw [threadRun_ok_marker j out startStr stopStr elapsedStr _ _ hm hp]
  have hmsg : pyFormatF (formatMessage (0 + countUpload (pySplitlines (pyStrip out)))
      (some ByteCnt.unknown)) elapsedStr =
      "Synced " ++ natRepr (countUpload (pySplitlines (pyStrip out)))
        ++ " files (Unknown bytes) in " ++ elapsedStr ++ " seconds" := by
    rw [Nat.zero_add, pyFormatF_synced_unknown]
  rw [hmsg]
  refine ⟨List.mem_append_right _ (List.mem_cons_self _ _), ?_, rfl⟩
  simp

/-- Witness for C7 on an output whose marker line defeats the regex. -/
theorem unknown_bytes_graceful_witness :
    LogCall.mk .info "Synced 0 files (Unknown bytes) in 0.10 seconds" ∈
      (threadRun ⟨"AK", "ST", "/r/", "b"⟩
        (.ok "Done. Uploaded some bytes") "S" "T" "0.10").logs ∧
    countLevel (threadRun ⟨"AK", "ST", "/r/", "b"⟩
      (.ok "Done. Uploaded some bytes") "S" "T" "0.10").logs .error = 0 ∧
    (threadRun ⟨"AK", "ST", "/r/", "b"⟩
      (.ok "Done. Uploaded some bytes") "S" "T" "0.10").term = .normal := by
  have h := unknown_bytes_graceful ⟨"AK", "ST", "/r/", "b"⟩ "Done. Uploaded some bytes"
    "S" "T" "0.10" "Done. Uploaded some bytes" (by decide) (by decide) (by decide)
  have e : ("Synced " ++ natRepr (countUpload (pySplitlines
        (pyStrip "Done. Uploaded some bytes")))
      ++ " files (Unknown bytes) in " ++ "0.10" ++ " seconds") =
      "Synced 0 files (Unknown bytes) in 0.10 seconds" := by decide
  rw [e] at h
  exact h

/-- C7 counterexample: for the output `Done. Uploaded some bytes` — marker
found, byte count unparsable — the only info-level message is
`Synced 0 files (Unknown bytes) in 0.10 seconds`: the outcome message is
not the claimed elapsed-time-only message and does not omit the counts. -/
theorem unknown_bytes_not_elapsed_only :
    (((threadRun ⟨"AK", "ST", "/r/", "b"⟩
      (.ok "Done. Uploaded some bytes") "S" "T" "0.10").logs.filter
        (fun c => c.level = Level.info)).map (fun c => c.msg)) =
      ["Synced 0 files (Unknown bytes) in 0.10 seconds"] := by
  decide

end S3Plugin
